import Mathlib

/-!
Verification development for the `untabulate` package (semantic context
extraction from tables).

The repository ships, under `src/`, the high-level package glue
(`src/untabulate/__init__.py`: `_format_results`, `untabulate`,
`untabulate_html`, `untabulate_xlsx`) and the command-line front end
(`src/untabulate/cli.py`).  The core grid engine
(`untabulate/projection_grid.py`: `GridElement`, `ProjectionGrid`) and the
two document adapters (`html_parser`, `xlsx_parser`) are not part of the
shipped sources; they are modelled here from the specification, as noted on
each such definition.  Everything else is a direct shallow embedding of the
Python sources: Python exceptions become an explicit error type `PyErr`,
fallible code returns `Except PyErr _`, and machine strings/integers become
`String`/`Int`.
-/

namespace Untabulate

/-- Python exceptions that appear in this code base, as explicit values.
`clickException` models `click.ClickException` (a user-facing message and a
non-zero exit status); the other constructors model exceptions that the CLI
does not catch. -/
inductive PyErr where
  | validationError
  | keyError (key : String)
  | indexError
  | typeError (msg : String)
  | clickException (msg : String)
  | tableNotFound
deriving Repr, DecidableEq

/-- Grid element record: header/data flag, 1-indexed anchor, span, label.
Modelled from the spec: the `projection_grid` module is absent from `src/`;
per spec section 3 a Grid Element carries `is_header`, `row`, `col`,
`rowspan`, `colspan`, `value`. -/
structure GridElement where
  is_header : Bool
  row : Int
  col : Int
  rowspan : Int
  colspan : Int
  value : String
deriving Repr, DecidableEq, Inhabited

/-- Maximum row of the footprint rectangle. -/
def GridElement.maxRow (e : GridElement) : Int := e.row + e.rowspan - 1

/-- Maximum column of the footprint rectangle. -/
def GridElement.maxCol (e : GridElement) : Int := e.col + e.colspan - 1

/-- Whether the footprint of `e` covers coordinate `(r, c)`. -/
def GridElement.covers (e : GridElement) (r c : Int) : Bool :=
  decide (e.row ≤ r) && decide (r ≤ e.maxRow) && decide (e.col ≤ c) && decide (c ≤ e.maxCol)

/-- Structural validity of the four positional fields (all at least 1). -/
def GridElement.validDims (e : GridElement) : Bool :=
  decide (1 ≤ e.row) && decide (1 ≤ e.col) && decide (1 ≤ e.rowspan) && decide (1 ≤ e.colspan)

/-- Modelled from the spec: `GridElement` construction (the
`projection_grid` module is absent from `src/`) accepts
`(is_header, row, col, rowspan, colspan, value)` and fails with a
`ValidationError` when `row`, `col`, `rowspan`, or `colspan` is below 1
(spec section 4.1). -/
def mkGridElement (is_header : Bool) (row col rowspan colspan : Int) (value : String) :
    Except PyErr GridElement :=
  if row < 1 ∨ col < 1 ∨ rowspan < 1 ∨ colspan < 1 then
    .error .validationError
  else
    .ok ⟨is_header, row, col, rowspan, colspan, value⟩

/-- Helper for `ownerAt`: scan the element list, keeping the position index. -/
def ownerAtAux : List GridElement → Nat → Int → Int → Option (Nat × GridElement)
  | [], _, _, _ => none
  | e :: rest, i, r, c =>
    if e.covers r c then some (i, e) else ownerAtAux rest (i + 1) r c

/-- Modelled from the spec: the ownership index of the Projection Grid
(spec section 4.2) maps every coordinate inside some footprint to its
owning element; overlap behaviour is implementation-defined, and per the
spec section 9 default the first qualifying owner in collection order is
taken.  The owning element is returned together with its position in the
collection, which serves as element identity for coalescing. -/
def ownerAt (es : List GridElement) (r c : Int) : Option (Nat × GridElement) :=
  ownerAtAux es 0 r c

/-- The candidate coordinates `1, …, n - 1` walked by a scan (empty when
`n ≤ 1`). -/
def candidates (n : Int) : List Int :=
  (List.range (n - 1).toNat).map (fun k => (k : Int) + 1)

/-- Helper for `dedupFirst`, carrying the set of already-seen indices. -/
def dedupFirstAux : List Nat → List Nat → List Nat
  | [], _ => []
  | i :: rest, seen =>
    if i ∈ seen then dedupFirstAux rest seen else i :: dedupFirstAux rest (i :: seen)

/-- Remove duplicates, keeping the first occurrence of each value in order.
This realises the coalescing of consecutive cells owned by one element. -/
def dedupFirst (l : List Nat) : List Nat := dedupFirstAux l []

/-- Modelled from the spec: the row-header scan of `get_path` (spec
section 4.3) walks columns `1 … col - 1` at the fixed target row, collects
owners that are headers lying entirely left of the target column, and
coalesces repeated owners by identity. -/
def rowScanIdxs (es : List GridElement) (row col : Int) : List Nat :=
  dedupFirst <| (candidates col).filterMap fun j =>
    match ownerAt es row j with
    | some (i, e) => if e.is_header = true ∧ e.maxCol < col then some i else none
    | none => none

/-- Modelled from the spec: the column-header scan of `get_path` (spec
section 4.3), symmetric to the row scan: walks rows `1 … row - 1` at the
fixed target column, collecting headers lying entirely above the target
row. -/
def colScanIdxs (es : List GridElement) (row col : Int) : List Nat :=
  dedupFirst <| (candidates row).filterMap fun i =>
    match ownerAt es i col with
    | some (k, e) => if e.is_header = true ∧ e.maxRow < row then some k else none
    | none => none

/-- Turn a list of element indices into their labels, dropping elements
whose label is empty (an empty-valued header consumes its position but
contributes no entry). -/
def labelsOf (es : List GridElement) (idxs : List Nat) : List String :=
  idxs.filterMap fun i =>
    match es.get? i with
    | some e => if e.value = "" then none else some e.value
    | none => none

/-- Modelled from the spec: `ProjectionGrid.get_path` (spec section 4.3).
The grid state is the stored element collection; the path is the
row-header labels followed by the column-header labels, each sub-sequence
in scan order. -/
def get_path (es : List GridElement) (row col : Int) : List String :=
  labelsOf es (rowScanIdxs es row col) ++ labelsOf es (colScanIdxs es row col)

/-- Semantic characterisation used to state claims: `e` can contribute to
the row-header scan targeting `(row, col)` — it is a header, it covers some
cell `(row, j)` with `1 ≤ j < col`, and its footprint ends strictly left of
`col`. -/
def GridElement.isRowHeaderFor (e : GridElement) (row col : Int) : Bool :=
  e.is_header && decide (e.maxCol < col) && decide (e.row ≤ row) && decide (row ≤ e.maxRow)
    && decide (e.col < col) && decide (1 ≤ e.maxCol)

/-- Semantic characterisation: `e` can contribute to the column-header scan
targeting `(row, col)`. -/
def GridElement.isColHeaderFor (e : GridElement) (row col : Int) : Bool :=
  e.is_header && decide (e.maxRow < row) && decide (e.col ≤ col) && decide (col ≤ e.maxCol)
    && decide (e.row < row) && decide (1 ≤ e.maxRow)

/-- A coordinate is ungoverned when no element of the collection qualifies
as a row header or a column header for it. -/
def ungoverned (es : List GridElement) (row col : Int) : Bool :=
  es.all fun e => !(e.isRowHeaderFor row col) && !(e.isColHeaderFor row col)

/-! ### Result assembly (`_format_results`, from `src/untabulate/__init__.py`) -/

/-- One output item of `_format_results`, for each of the three output
formats. -/
inductive FormatResult where
  | dict (path : List String) (value : String) (context : String)
  | strs (context : String)
  | tups (path : List String) (value : String)
deriving Repr, DecidableEq

/-- The context string of `_format_results`:
`separator.join(path) + ": " + value` when the path is truthy, else the
bare value. -/
def contextOf (sep : String) (path : List String) (value : String) : String :=
  if path.isEmpty then value else String.intercalate sep path ++ ": " ++ value

/-- The single item `_format_results` appends for a non-header element:
`strings` and `tuples` are selected by name, anything else falls into the
`dict` branch, exactly as the if/elif/else chain in the source. -/
def renderElement (grid : List GridElement) (format sep : String) (el : GridElement) :
    FormatResult :=
  let path := get_path grid el.row el.col
  if format = "strings" then .strs (contextOf sep path el.value)
  else if format = "tuples" then .tups path el.value
  else .dict path el.value (contextOf sep path el.value)

/-- Shallow embedding of `_format_results` (`src/untabulate/__init__.py`,
lines 45-83): loop over the elements, skipping headers, appending one
rendered item per data element. -/
def format_results (elements grid : List GridElement) (format sep : String) :
    List FormatResult :=
  match elements with
  | [] => []
  | el :: rest =>
    if el.is_header then format_results rest grid format sep
    else renderElement grid format sep el :: format_results rest grid format sep

/-! ### Heterogeneous ingestion (`untabulate`, from `src/untabulate/__init__.py`) -/

/-- A tuple/list input item, by length: Python indexing `item[0..2]` raises
`IndexError` below length 3; positions 3, 4, 5 are rowspan, colspan,
value. -/
inductive TupItem where
  | t0
  | t1 (h : Bool)
  | t2 (h : Bool) (r : Int)
  | t3 (h : Bool) (r c : Int)
  | t4 (h : Bool) (r c rs : Int)
  | t5 (h : Bool) (r c rs cs : Int)
  | t6 (h : Bool) (r c rs cs : Int) (v : String)
deriving Repr, DecidableEq

/-- One input item of `untabulate`, in any of the four accepted shapes.
Dict keys and object attributes that may be absent are `Option`s. -/
inductive Item where
  | native (e : GridElement)
  | dictI (is_header : Option Bool) (row col rowspan colspan : Option Int) (value : Option String)
  | tupI (t : TupItem)
  | objI (is_header : Bool) (row col : Int) (rowspan colspan : Option Int) (value : Option String)
deriving Repr, DecidableEq

/-- Shallow embedding of the conversion loop of `untabulate`
(`src/untabulate/__init__.py`, lines 126-155).  A native `GridElement` is
kept as-is; a dict looks up the three required keys (raising `KeyError` at
the first absent one, in argument order) and defaults the rest via `get`;
a tuple below length 3 raises `IndexError`, longer ones default the
missing trailing fields; an attribute object defaults via `getattr`.  The
non-native shapes then construct a `GridElement`. -/
def convertItem : Item → Except PyErr GridElement
  | .native e => .ok e
  | .dictI h r c rs cs v =>
    match h with
    | none => .error (.keyError "is_header")
    | some h =>
      match r with
      | none => .error (.keyError "row")
      | some r =>
        match c with
        | none => .error (.keyError "col")
        | some c => mkGridElement h r c (rs.getD 1) (cs.getD 1) (v.getD "")
  | .tupI t =>
    match t with
    | .t0 => .error .indexError
    | .t1 _ => .error .indexError
    | .t2 _ _ => .error .indexError
    | .t3 h r c => mkGridElement h r c 1 1 ""
    | .t4 h r c rs => mkGridElement h r c rs 1 ""
    | .t5 h r c rs cs => mkGridElement h r c rs cs ""
    | .t6 h r c rs cs v => mkGridElement h r c rs cs v
  | .objI h r c rs cs v => mkGridElement h r c (rs.getD 1) (cs.getD 1) (v.getD "")

/-- The conversion loop of `untabulate`: items are converted in order into
the `elements` accumulator; the first raised exception propagates. -/
def convertAll : List Item → Except PyErr (List GridElement)
  | [] => .ok []
  | it :: rest =>
    match convertItem it with
    | .error e => .error e
    | .ok g =>
      match convertAll rest with
      | .error e => .error e
      | .ok gs => .ok (g :: gs)

/-- Shallow embedding of `untabulate` (`src/untabulate/__init__.py`, lines
86-158): empty input short-circuits to `[]`; otherwise every item is
converted (first raised exception propagates), a grid is built from the
converted elements, and `_format_results` assembles the output. -/
def untabulate (data : List Item) (format sep : String) :
    Except PyErr (List FormatResult) :=
  match data with
  | [] => .ok []
  | _ =>
    match convertAll data with
    | .error e => .error e
    | .ok elements => .ok (format_results elements elements format sep)

/-- The full dict form of an element (all six keys present). -/
def GridElement.asDictFull (e : GridElement) : Item :=
  .dictI (some e.is_header) (some e.row) (some e.col) (some e.rowspan) (some e.colspan)
    (some e.value)

/-- The full tuple form of an element (length 6). -/
def GridElement.asTupFull (e : GridElement) : Item :=
  .tupI (.t6 e.is_header e.row e.col e.rowspan e.colspan e.value)

/-- The full attribute-object form of an element. -/
def GridElement.asObjFull (e : GridElement) : Item :=
  .objI e.is_header e.row e.col (some e.rowspan) (some e.colspan) (some e.value)

/-- The minimal dict form: only the three required keys. -/
def GridElement.asDictMin (e : GridElement) : Item :=
  .dictI (some e.is_header) (some e.row) (some e.col) none none none

/-- The minimal tuple form: length 3. -/
def GridElement.asTupMin (e : GridElement) : Item :=
  .tupI (.t3 e.is_header e.row e.col)

/-- The minimal attribute-object form: only the three required attributes. -/
def GridElement.asObjMin (e : GridElement) : Item :=
  .objI e.is_header e.row e.col none none none

/-! ### Cell references (`parse_cell_reference`, from `src/untabulate/cli.py`) -/

/-- ASCII letter class, the `[A-Za-z]` of the source regex (this class
stays ASCII-only under Unicode matching). -/
def isAsciiLetter (c : Char) : Bool :=
  (65 ≤ c.toNat && c.toNat ≤ 90) || (97 ≤ c.toNat && c.toNat ≤ 122)

/-- The first code point of every decade of decimal digits in the Unicode
character database (category Nd, version 14.0.0, the data the CPython
regex engine and `int` consult): each run `s … s + 9` holds the digits of
decimal value 0 to 9 in order, and together the runs cover exactly the
decimal digits. -/
def decimalDigitStarts : List Nat :=
  [48, 1632, 1776, 1984, 2406, 2534, 2662, 2790, 2918, 3046, 3174, 3302, 3430, 3558, 3664,
   3792, 3872, 4160, 4240, 6112, 6160, 6470, 6608, 6784, 6800, 6992, 7088, 7232, 7248,
   42528, 43216, 43264, 43472, 43504, 43600, 44016, 65296, 66720, 68912, 69734, 69872,
   69942, 70096, 70384, 70736, 70864, 71248, 71360, 71472, 71904, 72016, 72784, 73040,
   73120, 92768, 92864, 93008, 120782, 120792, 120802, 120812, 120822, 123200, 123632,
   125264, 130032]

/-- Decimal digit class: what the str-pattern `\d` of the source regex
matches — any Unicode decimal digit, the ASCII digits included. -/
def isPyDigit (c : Char) : Bool :=
  decimalDigitStarts.any fun s => s ≤ c.toNat && c.toNat ≤ s + 9

/-- The decimal value of a digit character: its offset inside its digit
decade (0 for a non-digit, never consulted). -/
def pyDigitVal (c : Char) : Int :=
  match decimalDigitStarts.find? (fun s => s ≤ c.toNat && c.toNat ≤ s + 9) with
  | some s => (c.toNat : Int) - s
  | none => 0

/-- The code points for which `str.isspace` holds — what `str.strip`
removes: ASCII whitespace, the information separators, next line,
no-break space, and the Unicode space and line/paragraph separators. -/
def pySpaceCodes : List Nat :=
  [9, 10, 11, 12, 13, 28, 29, 30, 31, 32, 133, 160, 5760, 8192, 8193, 8194, 8195, 8196,
   8197, 8198, 8199, 8200, 8201, 8202, 8232, 8233, 8239, 8287, 12288]

/-- Python whitespace, as removed by `str.strip`. -/
def isPySpace (c : Char) : Bool :=
  pySpaceCodes.contains c.toNat

/-- Model of `s.strip()`: the character list of `s` with leading and
trailing whitespace removed. -/
def pyStrip (s : String) : List Char :=
  ((s.data.dropWhile isPySpace).reverse.dropWhile isPySpace).reverse

/-- The column-letter loop of `parse_cell_reference`: uppercase each
letter and fold `col * 26 + (ord(char) - ord(A) + 1)`. -/
def colOfLetters (l : List Char) : Int :=
  l.foldl (fun acc ch => acc * 26 + ((ch.toUpper.toNat : Int) - 65 + 1)) 0

/-- Reading the digit group as a decimal integer, the `int(row_str)` of
the source: positional base 10 over the decimal value of each digit
character (`int` parses any Unicode decimal digit string). -/
def rowOfDigits (l : List Char) : Int :=
  l.foldl (fun acc ch => acc * 10 + pyDigitVal ch) 0

/-- Shallow embedding of `parse_cell_reference` (`src/untabulate/cli.py`,
lines 57-79): strip the input, match it against letters-then-digits
(anchored both ends — realised here by taking the maximal letter prefix,
which is forced since the two character classes are disjoint), and either
return `(row, col)` or raise a `ClickException`. -/
def parse_cell_reference (s : String) : Except PyErr (Int × Int) :=
  let t := pyStrip s
  let letters := t.takeWhile isAsciiLetter
  let rest := t.dropWhile isAsciiLetter
  if letters ≠ [] ∧ rest ≠ [] ∧ rest.all isPyDigit then
    .ok (rowOfDigits rest, colOfLetters letters)
  else
    .error (.clickException "Invalid cell reference. Use Excel format like A1 or B3.")

/-! ### Output serialisation (`format_output`, from `src/untabulate/cli.py`) -/

/-- A dict-format result record as seen by the CLI. -/
structure Rec where
  path : List String
  value : String
  context : String
deriving Repr, DecidableEq

/-- A Python value appearing in a `format_output` results list: a dict
record, a plain string, a `(path, value)` tuple, or a nested per-table
sub-list (the `all_tables` shape). -/
inductive PyVal where
  | record (r : Rec)
  | str (s : String)
  | tup (path : List String) (value : String)
  | listv (items : List PyVal)
deriving Repr

/-- Lower hex digit, as used by the json module for control characters. -/
def hexDigit (n : Nat) : Char :=
  if n < 10 then Char.ofNat (48 + n) else Char.ofNat (87 + n)

/-- Escaping of one character inside a JSON string literal, per
`json.dumps` with `ensure_ascii=False`: quote, backslash and control
characters are escaped, everything else is kept verbatim. -/
def jsonEscapeChar (c : Char) : String :=
  if c = '\"' then "\\\""
  else if c = '\\' then "\\\\"
  else if c = '\n' then "\\n"
  else if c = '\t' then "\\t"
  else if c = '\r' then "\\r"
  else if c.toNat = 8 then "\\b"
  else if c.toNat = 12 then "\\f"
  else if c.toNat < 32 then "\\u00" ++ String.mk [hexDigit (c.toNat / 16), hexDigit (c.toNat % 16)]
  else String.mk [c]

/-- Escaping of a character list for a JSON string literal. -/
def jsonEscape : List Char → String
  | [] => ""
  | c :: cs => jsonEscapeChar c ++ jsonEscape cs

/-- A JSON string literal. -/
def jsonStr (s : String) : String := "\"" ++ jsonEscape s.data ++ "\""

/-- Joining with `, `, the compact item separator of `json.dumps`. -/
def commaJoin : List String → String
  | [] => ""
  | [x] => x
  | x :: xs => x ++ ", " ++ commaJoin xs

/-- A compact JSON array given already-serialised items. -/
def jsonCompactList (xs : List String) : String := "[" ++ commaJoin xs ++ "]"

mutual

/-- Model of `json.dumps(v)` with default (compact) separators for the
values `format_output` can meet: records serialise as objects with keys
`path`, `value`, `context` in insertion order; tuples and lists as
arrays. -/
def jsonCompact : PyVal → String
  | .str s => jsonStr s
  | .record r =>
    "\x7b\"path\": " ++ jsonCompactList (r.path.map jsonStr) ++ ", \"value\": "
      ++ jsonStr r.value ++ ", \"context\": " ++ jsonStr r.context ++ "\x7d"
  | .tup p v => jsonCompactList [jsonCompactList (p.map jsonStr), jsonStr v]
  | .listv l => jsonCompactList (jsonCompactItems l)

/-- Compact serialisation of each value in a list. -/
def jsonCompactItems : List PyVal → List String
  | [] => []
  | x :: xs => jsonCompact x :: jsonCompactItems xs

end

/-- Indentation prefix of `n` spaces. -/
def indentStr (n : Nat) : String := String.mk (List.replicate n ' ')

/-- The indent=2 serialisation of a string array at nesting level `lvl`. -/
def jsonIndentStrArray (lvl : Nat) (xs : List String) : String :=
  match xs with
  | [] => "[]"
  | _ =>
    "[\n" ++ String.intercalate ",\n" (xs.map (fun s => indentStr (lvl + 2) ++ jsonStr s))
      ++ "\n" ++ indentStr lvl ++ "]"

/-- The indent=2 serialisation of a record object at nesting level `lvl`. -/
def jsonIndentRec (lvl : Nat) (r : Rec) : String :=
  "\x7b\n" ++ indentStr (lvl + 2) ++ "\"path\": " ++ jsonIndentStrArray (lvl + 2) r.path
    ++ ",\n" ++ indentStr (lvl + 2) ++ "\"value\": " ++ jsonStr r.value
    ++ ",\n" ++ indentStr (lvl + 2) ++ "\"context\": " ++ jsonStr r.context
    ++ "\n" ++ indentStr lvl ++ "\x7d"

/-- The indent=2 serialisation of a `(path, value)` tuple at nesting level
`lvl`. -/
def jsonIndentTup (lvl : Nat) (p : List String) (v : String) : String :=
  "[\n" ++ indentStr (lvl + 2) ++ jsonIndentStrArray (lvl + 2) p ++ ",\n"
    ++ indentStr (lvl + 2) ++ jsonStr v ++ "\n" ++ indentStr lvl ++ "]"

mutual

/-- Model of `json.dumps(v, indent=2, ensure_ascii=False)`, the `json`
branch of `format_output`. -/
def jsonIndentVal (lvl : Nat) : PyVal → String
  | .str s => jsonStr s
  | .record r => jsonIndentRec lvl r
  | .tup p v => jsonIndentTup lvl p v
  | .listv l =>
    match l with
    | [] => "[]"
    | _ =>
      "[\n" ++ String.intercalate ",\n" (jsonIndentItems (lvl + 2) l)
        ++ "\n" ++ indentStr lvl ++ "]"

/-- Indented serialisation of each value in a list, each prefixed by its
indentation. -/
def jsonIndentItems (lvl : Nat) : List PyVal → List String
  | [] => []
  | x :: xs => (indentStr lvl ++ jsonIndentVal lvl x) :: jsonIndentItems lvl xs

end

/-- Doubling of every double-quote character, the
`s.replace(one-quote, two-quotes)` of the csv branch with its
single-character pattern. -/
def doubleQuotes (s : String) : String :=
  String.join (s.data.map fun c => if c = '\"' then "\"\"" else String.mk [c])

/-- Extract a Python string, or fail: `str` values only. -/
def asStr : PyVal → Option String
  | .str s => some s
  | _ => none

/-- Collect the strings of a value list, or fail at the first non-string. -/
def allStrs : List PyVal → Option (List String)
  | [] => some []
  | x :: xs =>
    match asStr x with
    | none => none
    | some s =>
      match allStrs xs with
      | none => none
      | some ss => some (s :: ss)

/-- Model of `sep.join(items)` over Python values: raises `TypeError` as
soon as an item is not a string. -/
def pyJoinStrs (sep : String) (items : List PyVal) : Except PyErr String :=
  match allStrs items with
  | some ss => .ok (String.intercalate sep ss)
  | none => .error (.typeError "sequence item: expected str instance")

/-- The per-item projection of the `text` branch:
`r["context"] if isinstance(r, dict) else r`. -/
def textItem : PyVal → PyVal
  | .record d => .str d.context
  | other => other

/-- The per-item projection of the `csv` branch: a dict record becomes the
quoted line with doubled quotes; any other value is appended to the lines
as-is. -/
def csvItem (sep : String) : PyVal → PyVal
  | .record d =>
    .str ("\"" ++ doubleQuotes (String.intercalate sep d.path) ++ "\",\""
      ++ doubleQuotes d.value ++ "\"")
  | other => other

/-- Shallow embedding of `format_output` (`src/untabulate/cli.py`, lines
82-106): four named formats, every other name raises a
`ClickException`. -/
def format_output (results : List PyVal) (fmt sep : String) : Except PyErr String :=
  if fmt = "json" then .ok (jsonIndentVal 0 (.listv results))
  else if fmt = "jsonl" then .ok (String.intercalate "\n" (results.map jsonCompact))
  else if fmt = "text" then pyJoinStrs "\n" (results.map textItem)
  else if fmt = "csv" then pyJoinStrs "\n" (results.map (csvItem sep))
  else .error (.clickException ("Unknown format: " ++ fmt))

/-! ### The CLI commands (`html_cmd`, `xlsx_cmd`, from `src/untabulate/cli.py`) -/

/-- Where the html command gets its input: stdin content, a URL fetch
outcome (the external network transfer is a parameter: either content or
the text of the exception it raised), or a file with an existence flag. -/
inductive HtmlSource where
  | stdin (content : String)
  | url (fetched : Except String String)
  | file (present : Bool) (content : String)
deriving Repr

/-- Shallow embedding of `fetch_url` (`src/untabulate/cli.py`, lines
29-36): any exception of the underlying transfer is caught and re-raised
as a `ClickException` with a `Failed to fetch URL` message. -/
def fetch_url (r : Except String String) : Except PyErr String :=
  match r with
  | .ok s => .ok s
  | .error e => .error (.clickException ("Failed to fetch URL: " ++ e))

/-- The source-acquisition step of `html_cmd`: stdin is read directly, a
URL goes through `fetch_url`, a missing file raises a `ClickException`. -/
def getSource (src : HtmlSource) : Except PyErr String :=
  match src with
  | .stdin c => .ok c
  | .url r => fetch_url r
  | .file present c =>
    if present then .ok c else .error (.clickException "File not found")

/-- The outcome of `parse_html_table`: one element collection, or one per
table. -/
inductive ParseOut where
  | one (els : List GridElement)
  | many (tss : List (List GridElement))
deriving Repr

/-- Modelled from the spec: `parse_html_table` (the `html_parser` module
is absent from `src/`) signals a distinguished no-table condition when the
document holds no table, returns the first table's elements by default,
and one element collection per table under `all_tables` (spec section 6).
The document itself is abstracted to its list of per-table element
collections. -/
def parse_html_tableM (tables : List (List GridElement)) (all_tables : Bool) :
    Except PyErr ParseOut :=
  match tables with
  | [] => .error .tableNotFound
  | t :: ts => if all_tables then .ok (.many (t :: ts)) else .ok (.one t)

/-- A `_format_results` item as the Python value the CLI serialises. -/
def resultToPy : FormatResult → PyVal
  | .dict p v c => .record ⟨p, v, c⟩
  | .strs s => .str s
  | .tups p v => .tup p v

/-- Shallow embedding of `untabulate_html` (`src/untabulate/__init__.py`,
lines 161-210) over the abstracted document: parse, then either one grid
and one flat result list, or one grid per table and a list of per-table
sub-lists. -/
def untabulate_html (tables : List (List GridElement)) (format sep : String)
    (all_tables : Bool) : Except PyErr (List PyVal) :=
  match parse_html_tableM tables all_tables with
  | .error e => .error e
  | .ok (.one els) => .ok ((format_results els els format sep).map resultToPy)
  | .ok (.many tss) =>
    .ok (tss.map fun t => .listv ((format_results t t format sep).map resultToPy))

/-- Shallow embedding of `html_cmd` (`src/untabulate/cli.py`, lines
130-193).  `docTables` abstracts what `parse_html_table` finds in a given
content string; `idLookup` abstracts the lxml xpath lookup of
`extract_table_by_id` (content and id to the extracted table html, absent
when no table has that id).  When an id is given, a missing table raises a
`ClickException`, and `all_tables` is forced off.  `untabulate_html` is
always called with the dict format; a `TableNotFoundError` from it is
caught and re-raised as a `ClickException`; the results are serialised by
`format_output`. -/
def html_cmd (src : HtmlSource) (docTables : String → List (List GridElement))
    (idLookup : String → String → Option String) (table_id : Option String)
    (all_tables : Bool) (fmt sep : String) : Except PyErr String :=
  match getSource src with
  | .error e => .error e
  | .ok content =>
    match (match table_id with
           | none => Except.ok (content, all_tables)
           | some tid =>
             match idLookup content tid with
             | none => Except.error (PyErr.clickException "No table found with id")
             | some t => Except.ok (t, false)) with
    | .error e => .error e
    | .ok (content, all_tables) =>
      match untabulate_html (docTables content) "dict" sep all_tables with
      | .error .tableNotFound => .error (.clickException "No table found in HTML")
      | .error e => .error e
      | .ok results => format_output results fmt sep

/-- The keyword parameters accepted by `untabulate_xlsx`
(`src/untabulate/__init__.py`, line 213: `filepath` positional, then
keyword-only `sheet_name`, `format`, `separator`; no other keyword is
accepted). -/
def untabulate_xlsx_kwaccepted : List String := ["sheet_name", "format", "separator"]

/-- The keyword arguments `xlsx_cmd` passes to `untabulate_xlsx`
(`src/untabulate/cli.py`, lines 239-248). -/
def xlsx_cmd_kwpassed : List String :=
  ["sheet_name", "start_row", "start_col", "header_rows", "header_cols", "format", "separator"]

/-- Python keyword-argument binding: a call whose keyword list holds a name
the callee does not accept raises `TypeError` naming the first such
keyword. -/
def pyKwCallCheck (accepted passed : List String) : Except PyErr Unit :=
  match passed.find? (fun k => !accepted.contains k) with
  | some k => .error (.typeError ("untabulate_xlsx got an unexpected keyword argument " ++ k))
  | none => .ok ()

/-- The caller-visible inputs of `xlsx_cmd`. -/
structure XlsxCmdArgs where
  fileExists : Bool
  sheet : Option String
  start : Option String
  header_rows : Int
  header_cols : Int
  fmt : String
  sep : String
deriving Repr

/-- Shallow embedding of `xlsx_cmd` (`src/untabulate/cli.py`, lines
196-251) up to its call into `untabulate_xlsx`: check the file exists,
parse the `--start` reference when given (defaulting to row 1, column 1),
then bind the keyword arguments of the `untabulate_xlsx` call against that
function's signature.  The continuation past a successful binding (the
worksheet extraction and `format_output`) is represented by `.ok ()`. -/
def xlsx_cmd (a : XlsxCmdArgs) : Except PyErr Unit :=
  if a.fileExists = false then .error (.clickException "File not found")
  else
    match (match a.start with
           | none => Except.ok ((1 : Int), (1 : Int))
           | some s => parse_cell_reference s) with
    | .error e => .error e
    | .ok _ => pyKwCallCheck untabulate_xlsx_kwaccepted xlsx_cmd_kwpassed

/-- Absence of newline characters in a string. -/
def noNL (s : String) : Prop := ∀ ch ∈ s.data, ch ≠ '\n'

/-! ## Theorems -/

theorem format_results_eq_filter_map (es grid : List GridElement) (fmt sep : String) :
    format_results es grid fmt sep
      = (es.filter fun e => !e.is_header).map (renderElement grid fmt sep) := by
  induction es with
  | nil => rfl
  | cons el rest ih =>
    cases h : el.is_header <;> simp [format_results, h, List.filter, ih]

/-- Claim C3: the assembled result list holds exactly one entry per
non-header element, in input order, and no entry for any header element —
`_format_results` is the filter of the data elements mapped through the
per-element renderer, for every output format. -/
theorem C3_one_entry_per_data_element (es grid : List GridElement) (fmt sep : String) :
    format_results es grid fmt sep
      = (es.filter fun e => !e.is_header).map (renderElement grid fmt sep) :=
  format_results_eq_filter_map es grid fmt sep

theorem contextOf_eq (sep : String) (path : List String) (v : String) :
    contextOf sep path v
      = if path = [] then v else String.intercalate sep path ++ ": " ++ v := by
  simp [contextOf, List.isEmpty_iff]

/-- Claim C2: for every element collection, grid and separator, each
non-header element contributes the dict record of its path, value and
context, where the context is the separator-joined path followed by a
colon and the value (just the value on an empty path); the strings format
yields exactly that context string. -/
theorem C2_record_shape (es grid : List GridElement) (sep : String) (el : GridElement)
    (hmem : el ∈ es) (hdata : el.is_header = false) :
    FormatResult.dict (get_path grid el.row el.col) el.value
        (if get_path grid el.row el.col = [] then el.value
         else String.intercalate sep (get_path grid el.row el.col) ++ ": " ++ el.value)
      ∈ format_results es grid "dict" sep
  ∧ FormatResult.strs
        (if get_path grid el.row el.col = [] then el.value
         else String.intercalate sep (get_path grid el.row el.col) ++ ": " ++ el.value)
      ∈ format_results es grid "strings" sep := by
  have hf : el ∈ es.filter fun e => !e.is_header := by
    simp [List.mem_filter, hmem, hdata]
  constructor
  · rw [format_results_eq_filter_map]
    have := List.mem_map_of_mem (renderElement grid "dict" sep) hf
    simpa [renderElement, contextOf_eq] using this
  · rw [format_results_eq_filter_map]
    have := List.mem_map_of_mem (renderElement grid "strings" sep) hf
    simpa [renderElement, contextOf_eq] using this

/-- Witness for C2 on a one-element collection over the empty grid. -/
theorem C2_record_shape_witness :
    ((⟨false, 1, 1, 1, 1, "v"⟩ : GridElement) ∈ [(⟨false, 1, 1, 1, 1, "v"⟩ : GridElement)]
      ∧ (⟨false, 1, 1, 1, 1, "v"⟩ : GridElement).is_header = false)
  ∧ (FormatResult.dict (get_path [] 1 1) "v"
        (if get_path ([] : List GridElement) 1 1 = [] then "v"
         else String.intercalate "-" (get_path [] 1 1) ++ ": " ++ "v")
      ∈ format_results [(⟨false, 1, 1, 1, 1, "v"⟩ : GridElement)] [] "dict" "-"
    ∧ FormatResult.strs
        (if get_path ([] : List GridElement) 1 1 = [] then "v"
         else String.intercalate "-" (get_path [] 1 1) ++ ": " ++ "v")
      ∈ format_results [(⟨false, 1, 1, 1, 1, "v"⟩ : GridElement)] [] "strings" "-") :=
  ⟨⟨by simp, rfl⟩,
    C2_record_shape [⟨false, 1, 1, 1, 1, "v"⟩] [] "-" ⟨false, 1, 1, 1, 1, "v"⟩ (by simp) rfl⟩

theorem convertItem_native (e : GridElement) : convertItem (Item.native e) = .ok e := rfl

theorem mkGridElement_ok (e : GridElement) (hv : e.validDims = true) :
    mkGridElement e.is_header e.row e.col e.rowspan e.colspan e.value = .ok e := by
  simp [GridElement.validDims] at hv
  rw [mkGridElement, if_neg (by omega)]

theorem convertItem_asDictFull (e : GridElement) (hv : e.validDims = true) :
    convertItem e.asDictFull = .ok e := by
  simpa [GridElement.asDictFull, convertItem] using mkGridElement_ok e hv

theorem convertItem_asTupFull (e : GridElement) (hv : e.validDims = true) :
    convertItem e.asTupFull = .ok e := by
  simpa [GridElement.asTupFull, convertItem] using mkGridElement_ok e hv

theorem convertItem_asObjFull (e : GridElement) (hv : e.validDims = true) :
    convertItem e.asObjFull = .ok e := by
  simpa [GridElement.asObjFull, convertItem] using mkGridElement_ok e hv

theorem convertItem_min (e : GridElement) (hv : e.validDims = true)
    (h1 : e.rowspan = 1) (h2 : e.colspan = 1) (h3 : e.value = "") :
    convertItem e.asDictMin = .ok e ∧ convertItem e.asTupMin = .ok e
      ∧ convertItem e.asObjMin = .ok e := by
  have hm := mkGridElement_ok e hv
  rw [h1, h2, h3] at hm
  exact ⟨by simpa [GridElement.asDictMin, convertItem] using hm,
    by simpa [GridElement.asTupMin, convertItem] using hm,
    by simpa [GridElement.asObjMin, convertItem] using hm⟩

theorem convertAll_of_repr (es : List GridElement) (f : GridElement → Item)
    (h : ∀ e ∈ es, convertItem (f e) = .ok e) :
    convertAll (es.map f) = .ok es := by
  induction es with
  | nil => rfl
  | cons e rest ih =>
    have he := h e (by simp)
    have hrest := ih fun x hx => h x (by simp [hx])
    simp [convertAll, he, hrest]

theorem untabulate_of_repr (es : List GridElement) (f : GridElement → Item)
    (h : ∀ e ∈ es, convertItem (f e) = .ok e) (fmt sep : String) :
    untabulate (es.map f) fmt sep = untabulate (es.map Item.native) fmt sep := by
  cases es with
  | nil => rfl
  | cons e rest =>
    have h1 := convertAll_of_repr (e :: rest) f h
    have h2 := convertAll_of_repr (e :: rest) Item.native fun x _ => convertItem_native x
    simp only [untabulate, List.map_cons] at h1 h2 ⊢
    rw [h1, h2]

/-- Claim C4: presenting the same logically identical, structurally valid
elements as native records, full dicts, full tuples, or full attribute
objects gives identical `untabulate` results for every format and
separator; when the optional fields carry their defaults (rowspan and
colspan 1, empty value), the minimal dict, tuple and object forms also
agree. -/
theorem C4_ingestion_equivalence (es : List GridElement) (fmt sep : String)
    (hv : ∀ e ∈ es, e.validDims = true) :
    untabulate (es.map GridElement.asDictFull) fmt sep
        = untabulate (es.map Item.native) fmt sep
  ∧ untabulate (es.map GridElement.asTupFull) fmt sep
        = untabulate (es.map Item.native) fmt sep
  ∧ untabulate (es.map GridElement.asObjFull) fmt sep
        = untabulate (es.map Item.native) fmt sep
  ∧ ((∀ e ∈ es, e.rowspan = 1 ∧ e.colspan = 1 ∧ e.value = "") →
      untabulate (es.map GridElement.asDictMin) fmt sep
          = untabulate (es.map Item.native) fmt sep
    ∧ untabulate (es.map GridElement.asTupMin) fmt sep
          = untabulate (es.map Item.native) fmt sep
    ∧ untabulate (es.map GridElement.asObjMin) fmt sep
          = untabulate (es.map Item.native) fmt sep) := by
  refine ⟨untabulate_of_repr es _ (fun e he => convertItem_asDictFull e (hv e he)) fmt sep,
    untabulate_of_repr es _ (fun e he => convertItem_asTupFull e (hv e he)) fmt sep,
    untabulate_of_repr es _ (fun e he => convertItem_asObjFull e (hv e he)) fmt sep,
    fun hd => ⟨?_, ?_, ?_⟩⟩
  · exact untabulate_of_repr es _ (fun e he =>
      (convertItem_min e (hv e he) (hd e he).1 (hd e he).2.1 (hd e he).2.2).1) fmt sep
  · exact untabulate_of_repr es _ (fun e he =>
      (convertItem_min e (hv e he) (hd e he).1 (hd e he).2.1 (hd e he).2.2).2.1) fmt sep
  · exact untabulate_of_repr es _ (fun e he =>
      (convertItem_min e (hv e he) (hd e he).1 (hd e he).2.1 (hd e he).2.2).2.2) fmt sep

/-- Witness for C4 on a concrete one-element collection. -/
theorem C4_ingestion_equivalence_witness :
    (∀ e ∈ [(⟨false, 1, 1, 1, 1, ""⟩ : GridElement)], e.validDims = true)
  ∧ (untabulate ([(⟨false, 1, 1, 1, 1, ""⟩ : GridElement)].map GridElement.asDictFull) "dict" " → "
        = untabulate ([(⟨false, 1, 1, 1, 1, ""⟩ : GridElement)].map Item.native) "dict" " → "
    ∧ untabulate ([(⟨false, 1, 1, 1, 1, ""⟩ : GridElement)].map GridElement.asTupFull) "dict" " → "
        = untabulate ([(⟨false, 1, 1, 1, 1, ""⟩ : GridElement)].map Item.native) "dict" " → "
    ∧ untabulate ([(⟨false, 1, 1, 1, 1, ""⟩ : GridElement)].map GridElement.asObjFull) "dict" " → "
        = untabulate ([(⟨false, 1, 1, 1, 1, ""⟩ : GridElement)].map Item.native) "dict" " → "
    ∧ ((∀ e ∈ [(⟨false, 1, 1, 1, 1, ""⟩ : GridElement)],
          e.rowspan = 1 ∧ e.colspan = 1 ∧ e.value = "") →
        untabulate ([(⟨false, 1, 1, 1, 1, ""⟩ : GridElement)].map GridElement.asDictMin) "dict" " → "
            = untabulate ([(⟨false, 1, 1, 1, 1, ""⟩ : GridElement)].map Item.native) "dict" " → "
      ∧ untabulate ([(⟨false, 1, 1, 1, 1, ""⟩ : GridElement)].map GridElement.asTupMin) "dict" " → "
            = untabulate ([(⟨false, 1, 1, 1, 1, ""⟩ : GridElement)].map Item.native) "dict" " → "
      ∧ untabulate ([(⟨false, 1, 1, 1, 1, ""⟩ : GridElement)].map GridElement.asObjMin) "dict" " → "
            = untabulate ([(⟨false, 1, 1, 1, 1, ""⟩ : GridElement)].map Item.native) "dict" " → ")) :=
  ⟨by decide, C4_ingestion_equivalence [⟨false, 1, 1, 1, 1, ""⟩] "dict" " → " (by decide)⟩

/-- Claim C10: the optional fields of the non-native shapes default
silently (rowspan and colspan to 1, value to the empty string), while a
dict missing a required key raises `KeyError` on that key and a tuple
shorter than three items raises `IndexError`, both propagated by
`untabulate` unchanged — the `keyError` and `indexError` outcomes, not
`validationError`. -/
theorem C10_required_fields (h : Bool) (r c : Int) (v : String) (rest : List Item)
    (fmt sep : String) :
    convertItem (.dictI (some h) (some r) (some c) none none none) = mkGridElement h r c 1 1 ""
  ∧ convertItem (.tupI (.t3 h r c)) = mkGridElement h r c 1 1 ""
  ∧ convertItem (.objI h r c none none none) = mkGridElement h r c 1 1 ""
  ∧ convertItem (.dictI none (some r) (some c) none none (some v))
        = .error (.keyError "is_header")
  ∧ convertItem (.dictI (some h) none (some c) none none (some v)) = .error (.keyError "row")
  ∧ convertItem (.dictI (some h) (some r) none none none (some v)) = .error (.keyError "col")
  ∧ convertItem (.tupI .t0) = .error .indexError
  ∧ convertItem (.tupI (.t1 h)) = .error .indexError
  ∧ convertItem (.tupI (.t2 h r)) = .error .indexError
  ∧ untabulate (.dictI none none none none none none :: rest) fmt sep
        = .error (.keyError "is_header")
  ∧ untabulate (.tupI .t0 :: rest) fmt sep = .error .indexError := by
  refine ⟨rfl, rfl, rfl, rfl, rfl, rfl, rfl, rfl, rfl, ?_, ?_⟩ <;>
    simp [untabulate, convertAll, convertItem]

/-- Claim C5 (failing input): for every existing workbook file (here with
the default anchor), `xlsx_cmd` does not succeed in calling
`untabulate_xlsx` — keyword binding of the call raises a `TypeError` on
`start_row`, the first keyword the callee does not accept, so the
worksheet region is never extracted. -/
theorem C5_xlsx_call_type_error (a : XlsxCmdArgs) (h1 : a.fileExists = true)
    (h2 : a.start = none) :
    xlsx_cmd a
      = .error (.typeError "untabulate_xlsx got an unexpected keyword argument start_row") := by
  simp only [xlsx_cmd, h1, h2]
  rfl

/-- Witness for C5 at a concrete argument record. -/
theorem C5_xlsx_call_type_error_witness :
    xlsx_cmd ⟨true, none, none, 1, 1, "json", " → "⟩
      = .error (.typeError "untabulate_xlsx got an unexpected keyword argument start_row") :=
  C5_xlsx_call_type_error ⟨true, none, none, 1, 1, "json", " → "⟩ rfl rfl

/-- Claim C6: the html command turns a missing file, a failed URL fetch,
and a table-free input each into a `ClickException` — a user-facing
message with a non-zero exit status — rather than an unhandled
exception. -/
theorem C6_html_cmd_user_facing_errors (docTables : String → List (List GridElement))
    (idLookup : String → String → Option String) (tid : Option String) (allT : Bool)
    (fmt sep c msg : String) (hdoc : docTables c = []) :
    html_cmd (.file false c) docTables idLookup tid allT fmt sep
        = .error (.clickException "File not found")
  ∧ html_cmd (.url (.error msg)) docTables idLookup tid allT fmt sep
        = .error (.clickException ("Failed to fetch URL: " ++ msg))
  ∧ html_cmd (.file true c) docTables idLookup none allT fmt sep
        = .error (.clickException "No table found in HTML") := by
  refine ⟨rfl, rfl, ?_⟩
  simp [html_cmd, getSource, untabulate_html, parse_html_tableM, hdoc]

/-- Witness for C6 on concrete scenario data. -/
theorem C6_html_cmd_user_facing_errors_witness :
    ((fun _ => ([] : List (List GridElement))) "x" = [])
  ∧ (html_cmd (.file false "x") (fun _ => []) (fun _ _ => none) none false "json" " → "
        = .error (.clickException "File not found")
    ∧ html_cmd (.url (.error "boom")) (fun _ => []) (fun _ _ => none) none false "json" " → "
        = .error (.clickException ("Failed to fetch URL: " ++ "boom"))
    ∧ html_cmd (.file true "x") (fun _ => []) (fun _ _ => none) none false "json" " → "
        = .error (.clickException "No table found in HTML")) :=
  ⟨rfl, C6_html_cmd_user_facing_errors (fun _ => []) (fun _ _ => none) none false
    "json" " → " "x" "boom" rfl⟩

theorem ownerAtAux_covers (es : List GridElement) (i : Nat) (r c : Int) (j : Nat)
    (e : GridElement) (h : ownerAtAux es i r c = some (j, e)) :
    e ∈ es ∧ e.covers r c = true := by
  induction es generalizing i with
  | nil => simp [ownerAtAux] at h
  | cons hd tl ih =>
    by_cases hc : hd.covers r c
    · simp [ownerAtAux, hc] at h
      exact ⟨by simp [h.2], h.2 ▸ hc⟩
    · simp [ownerAtAux, hc] at h
      obtain ⟨hm, hcov⟩ := ih (i + 1) h
      exact ⟨by simp [hm], hcov⟩

theorem mem_candidates {j n : Int} (h : j ∈ candidates n) : 1 ≤ j ∧ j < n := by
  simp [candidates] at h
  obtain ⟨k, hk, rfl⟩ := h
  omega

theorem rowScan_empty_of_ungoverned (es : List GridElement) (row col : Int)
    (h : ungoverned es row col = true) : rowScanIdxs es row col = [] := by
  rw [rowScanIdxs]
  have : ((candidates col).filterMap fun j =>
      match ownerAt es row j with
      | some (i, e) => if e.is_header = true ∧ e.maxCol < col then some i else none
      | none => none) = [] := by
    rw [List.filterMap_eq_nil_iff]
    intro j hj
    obtain ⟨hj1, hj2⟩ := mem_candidates hj
    cases hw : ownerAt es row j with
    | none => rfl
    | some p =>
      obtain ⟨i, e⟩ := p
      obtain ⟨hmem, hcov⟩ := ownerAtAux_covers es 0 row j i e hw
      simp only []
      rw [if_neg]
      rintro ⟨hh, hmc⟩
      simp [GridElement.covers] at hcov
      simp [ungoverned, List.all_eq_true] at h
      have hfalse := (h e hmem).1
      have htrue : e.isRowHeaderFor row col = true := by
        simp [GridElement.isRowHeaderFor, hh, hmc]
        omega
      rw [hfalse] at htrue
      exact Bool.false_ne_true htrue
  rw [this]
  rfl

theorem colScan_empty_of_ungoverned (es : List GridElement) (row col : Int)
    (h : ungoverned es row col = true) : colScanIdxs es row col = [] := by
  rw [colScanIdxs]
  have : ((candidates row).filterMap fun i =>
      match ownerAt es i col with
      | some (k, e) => if e.is_header = true ∧ e.maxRow < row then some k else none
      | none => none) = [] := by
    rw [List.filterMap_eq_nil_iff]
    intro i hi
    obtain ⟨hi1, hi2⟩ := mem_candidates hi
    cases hw : ownerAt es i col with
    | none => rfl
    | some p =>
      obtain ⟨k, e⟩ := p
      obtain ⟨hmem, hcov⟩ := ownerAtAux_covers es 0 i col k e hw
      simp only []
      rw [if_neg]
      rintro ⟨hh, hmr⟩
      simp [GridElement.covers] at hcov
      simp [ungoverned, List.all_eq_true] at h
      have hfalse := (h e hmem).2
      have htrue : e.isColHeaderFor row col = true := by
        simp [GridElement.isColHeaderFor, hh, hmr]
        omega
      rw [hfalse] at htrue
      exact Bool.false_ne_true htrue
  rw [this]
  rfl

theorem ungoverned_of_low (es : List GridElement) (row col : Int)
    (hv : ∀ e ∈ es, e.validDims = true) (hlow : row < 1 ∨ col < 1) :
    ungoverned es row col = true := by
  simp [ungoverned, List.all_eq_true]
  intro e he
  have := hv e he
  simp [GridElement.validDims] at this
  constructor
  · rw [GridElement.isRowHeaderFor]
    simp [GridElement.maxRow, GridElement.maxCol]
    intro _ _ _
    omega
  · rw [GridElement.isColHeaderFor]
    simp [GridElement.maxRow, GridElement.maxCol]
    intro _ _ _
    omega

/-- Claim C1, amended: `get_path` is a total function of the grid state
and any integer coordinate (it returns a list of strings by
construction); on an ungoverned coordinate — one no element qualifies for
as a row or column header, which for a structurally valid collection
includes every coordinate with row or column below 1 — it returns the
empty sequence.  (A coordinate beyond the occupied extent of the grid can
still be governed by headers above or to its left; see the
counterexample.) -/
theorem C1_get_path_empty_on_miss (es : List GridElement) (row col : Int) :
    (ungoverned es row col = true → get_path es row col = [])
  ∧ ((∀ e ∈ es, e.validDims = true) → row < 1 ∨ col < 1 → get_path es row col = []) := by
  constructor
  · intro h
    rw [get_path, rowScan_empty_of_ungoverned es row col h,
      colScan_empty_of_ungoverned es row col h]
    rfl
  · intro hv hlow
    have h := ungoverned_of_low es row col hv hlow
    rw [get_path, rowScan_empty_of_ungoverned es row col h,
      colScan_empty_of_ungoverned es row col h]
    rfl

/-- Witness for C1 on a concrete grid and coordinate. -/
theorem C1_get_path_empty_on_miss_witness :
    ungoverned [(⟨true, 1, 1, 1, 1, "H"⟩ : GridElement)] 1 1 = true
  ∧ get_path [(⟨true, 1, 1, 1, 1, "H"⟩ : GridElement)] 1 1 = [] :=
  ⟨by decide, (C1_get_path_empty_on_miss [⟨true, 1, 1, 1, 1, "H"⟩] 1 1).1 (by decide)⟩

/-- Counterexample to claim C1 as stated: a coordinate strictly below the
occupied extent of a structurally valid grid (row 5, while every footprint
ends at row 1 and column 1 — out of range and owned by no element) still
receives a non-empty path from the header above it. -/
theorem C1_out_of_range_counterexample :
    get_path [(⟨true, 1, 1, 1, 1, "H"⟩ : GridElement)] 5 1 = ["H"]
  ∧ ownerAt [(⟨true, 1, 1, 1, 1, "H"⟩ : GridElement)] 5 1 = none
  ∧ ([(⟨true, 1, 1, 1, 1, "H"⟩ : GridElement)].all
      fun e => e.validDims && decide (e.maxRow < 5) && decide (e.maxCol ≤ 1)) = true := by
  decide

theorem string_data_append (a b : String) : (a ++ b).data = a.data ++ b.data := by
  cases a
  cases b
  rfl

theorem noNL_append {a b : String} (ha : noNL a) (hb : noNL b) : noNL (a ++ b) := by
  intro ch hch
  rw [string_data_append] at hch
  rcases List.mem_append.mp hch with h | h
  · exact ha ch h
  · exact hb ch h

theorem hexDigit_ne_nl (n : Nat) (h : n < 16) : hexDigit n ≠ '\n' := by
  interval_cases n <;> decide

theorem noNL_of_lit {s : String} (h : ∀ ch ∈ s.data, ch ≠ '\n') : noNL s := h

theorem noNL_jsonEscapeChar (c : Char) : noNL (jsonEscapeChar c) := by
  unfold jsonEscapeChar
  split_ifs with h1 h2 h3 h4 h5 h6 h7 h8
  · exact noNL_of_lit (by decide)
  · exact noNL_of_lit (by decide)
  · exact noNL_of_lit (by decide)
  · exact noNL_of_lit (by decide)
  · exact noNL_of_lit (by decide)
  · exact noNL_of_lit (by decide)
  · exact noNL_of_lit (by decide)
  · refine noNL_append (noNL_of_lit (by decide)) ?_
    intro ch hch
    have hch2 : ch ∈ [hexDigit (c.toNat / 16), hexDigit (c.toNat % 16)] := hch
    simp only [List.mem_cons, List.mem_singleton, List.not_mem_nil, or_false] at hch2
    rcases hch2 with rfl | rfl
    · exact hexDigit_ne_nl _ (by omega)
    · exact hexDigit_ne_nl _ (by omega)
  · intro ch hch
    have hch2 : ch ∈ [c] := hch
    simp only [List.mem_singleton] at hch2
    subst hch2
    exact h3

theorem noNL_jsonEscape (l : List Char) : noNL (jsonEscape l) := by
  induction l with
  | nil => intro ch hch; simp [jsonEscape] at hch
  | cons c cs ih =>
    rw [jsonEscape]
    exact noNL_append (noNL_jsonEscapeChar c) ih

theorem noNL_jsonStr (s : String) : noNL (jsonStr s) := by
  rw [jsonStr]
  exact noNL_append (noNL_append (noNL_of_lit (by decide)) (noNL_jsonEscape s.data))
    (noNL_of_lit (by decide))

theorem noNL_commaJoin (xs : List String) (h : ∀ x ∈ xs, noNL x) : noNL (commaJoin xs) := by
  induction xs with
  | nil => intro ch hch; simp [commaJoin] at hch
  | cons x t ih =>
    cases t with
    | nil => exact h x (by simp)
    | cons y u =>
      have hc : commaJoin (x :: y :: u) = x ++ ", " ++ commaJoin (y :: u) := rfl
      rw [hc]
      exact noNL_append (noNL_append (h x (by simp)) (noNL_of_lit (by decide)))
        (ih fun z hz => h z (by simp [hz]))

theorem noNL_jsonCompactList (xs : List String) (h : ∀ x ∈ xs, noNL x) :
    noNL (jsonCompactList xs) := by
  rw [jsonCompactList]
  exact noNL_append (noNL_append (noNL_of_lit (by decide)) (noNL_commaJoin xs h))
    (noNL_of_lit (by decide))

theorem noNL_jsonCompact_record (r : Rec) : noNL (jsonCompact (PyVal.record r)) := by
  rw [jsonCompact]
  refine noNL_append (noNL_append (noNL_append (noNL_append (noNL_append
    (noNL_append (noNL_of_lit (by decide)) ?_) (noNL_of_lit (by decide)))
    (noNL_jsonStr _)) (noNL_of_lit (by decide)))
    (noNL_jsonStr _)) (noNL_of_lit (by decide))
  refine noNL_jsonCompactList _ fun x hx => ?_
  obtain ⟨s, -, rfl⟩ := List.mem_map.mp hx
  exact noNL_jsonStr s

theorem allStrs_map_str (ss : List String) : allStrs (ss.map PyVal.str) = some ss := by
  induction ss with
  | nil => rfl
  | cons a t ih => simp [allStrs, asStr, ih]

theorem pyJoinStrs_map_str (sep : String) (ss : List String) :
    pyJoinStrs sep (ss.map PyVal.str) = .ok (String.intercalate sep ss) := by
  simp [pyJoinStrs, allStrs_map_str]

/-- Claim C7: over a flat list of dict records, `format_output` renders
`json` as the single indent-2 JSON array of the records, `jsonl` as the
compact JSON object of each record joined by newlines (one per line: no
serialised record contains a newline), `text` as each record's context
joined by newlines, `csv` as one quoted `path,value` line per record with
every embedded double quote doubled, and raises a `ClickException` on any
other format name. -/
theorem C7_format_output_shapes (rs : List Rec) (sep : String) :
    format_output (rs.map PyVal.record) "json" sep
        = .ok (jsonIndentVal 0 (.listv (rs.map PyVal.record)))
  ∧ format_output (rs.map PyVal.record) "jsonl" sep
        = .ok (String.intercalate "\n" (rs.map fun r => jsonCompact (.record r)))
  ∧ (∀ r ∈ rs, ∀ ch ∈ (jsonCompact (PyVal.record r)).data, ch ≠ '\n')
  ∧ format_output (rs.map PyVal.record) "text" sep
        = .ok (String.intercalate "\n" (rs.map Rec.context))
  ∧ format_output (rs.map PyVal.record) "csv" sep
        = .ok (String.intercalate "\n" (rs.map fun r =>
            "\"" ++ doubleQuotes (String.intercalate sep r.path) ++ "\",\""
              ++ doubleQuotes r.value ++ "\""))
  ∧ ∀ f, f ≠ "json" → f ≠ "jsonl" → f ≠ "text" → f ≠ "csv" →
      format_output (rs.map PyVal.record) f sep
        = .error (.clickException ("Unknown format: " ++ f)) := by
  refine ⟨by simp [format_output], ?_, ?_, ?_, ?_, ?_⟩
  · simp [format_output, List.map_map]
    rfl
  · intro r _
    exact noNL_jsonCompact_record r
  · have h0 : format_output (rs.map PyVal.record) "text" sep
        = pyJoinStrs "\n" ((rs.map PyVal.record).map textItem) := by
      rw [format_output, if_neg (by decide), if_neg (by decide), if_pos rfl]
    rw [h0, List.map_map]
    have hfun : textItem ∘ PyVal.record = PyVal.str ∘ Rec.context := funext fun r => rfl
    rw [hfun, ← List.map_map]
    exact pyJoinStrs_map_str "\n" (rs.map Rec.context)
  · have h0 : format_output (rs.map PyVal.record) "csv" sep
        = pyJoinStrs "\n" ((rs.map PyVal.record).map (csvItem sep)) := by
      rw [format_output, if_neg (by decide), if_neg (by decide), if_neg (by decide),
        if_pos rfl]
    rw [h0, List.map_map]
    have hfun : csvItem sep ∘ PyVal.record
        = PyVal.str ∘ fun r : Rec =>
            "\"" ++ doubleQuotes (String.intercalate sep r.path) ++ "\",\""
              ++ doubleQuotes r.value ++ "\"" := funext fun r => rfl
    rw [hfun, ← List.map_map]
    exact pyJoinStrs_map_str "\n" _
  · intro f h1 h2 h3 h4
    simp [format_output, h1, h2, h3, h4]

/-- Witness for C7 on a one-record list. -/
theorem C7_format_output_shapes_witness :
    format_output ([(⟨["A"], "1", "A: 1"⟩ : Rec)].map PyVal.record) "json" ","
        = .ok (jsonIndentVal 0 (.listv ([(⟨["A"], "1", "A: 1"⟩ : Rec)].map PyVal.record)))
  ∧ format_output ([(⟨["A"], "1", "A: 1"⟩ : Rec)].map PyVal.record) "jsonl" ","
        = .ok (String.intercalate "\n"
            ([(⟨["A"], "1", "A: 1"⟩ : Rec)].map fun r => jsonCompact (.record r)))
  ∧ (∀ r ∈ [(⟨["A"], "1", "A: 1"⟩ : Rec)],
      ∀ ch ∈ (jsonCompact (PyVal.record r)).data, ch ≠ '\n')
  ∧ format_output ([(⟨["A"], "1", "A: 1"⟩ : Rec)].map PyVal.record) "text" ","
        = .ok (String.intercalate "\n" ([(⟨["A"], "1", "A: 1"⟩ : Rec)].map Rec.context))
  ∧ format_output ([(⟨["A"], "1", "A: 1"⟩ : Rec)].map PyVal.record) "csv" ","
        = .ok (String.intercalate "\n" ([(⟨["A"], "1", "A: 1"⟩ : Rec)].map fun r =>
            "\"" ++ doubleQuotes (String.intercalate "," r.path) ++ "\",\""
              ++ doubleQuotes r.value ++ "\""))
  ∧ ∀ f, f ≠ "json" → f ≠ "jsonl" → f ≠ "text" → f ≠ "csv" →
      format_output ([(⟨["A"], "1", "A: 1"⟩ : Rec)].map PyVal.record) f ","
        = .error (.clickException ("Unknown format: " ++ f)) :=
  C7_format_output_shapes [⟨["A"], "1", "A: 1"⟩] ","

/-- Claim C8: when `html_cmd` processes all tables (the nested
list-of-lists shape produced by `untabulate_html` under `all_tables`), the
`text` and `csv` formats raise an uncaught `TypeError` for every non-empty
multi-table result, because per-table sub-lists reach the final string
join. -/
theorem C8_nested_tables_type_error (c sep fmt : String)
    (docTables : String → List (List GridElement))
    (idLookup : String → String → Option String)
    (hne : docTables c ≠ []) (hf : fmt = "text" ∨ fmt = "csv") :
    html_cmd (.file true c) docTables idLookup none true fmt sep
      = .error (.typeError "sequence item: expected str instance") := by
  obtain ⟨t, ts, hts⟩ := List.exists_cons_of_ne_nil hne
  rcases hf with rfl | rfl <;>
    simp [html_cmd, getSource, untabulate_html, parse_html_tableM, hts, format_output,
      pyJoinStrs, allStrs, asStr, textItem, csvItem]

/-- Witness for C8 on a concrete one-table document. -/
theorem C8_nested_tables_type_error_witness :
    ((fun _ => [[(⟨false, 1, 1, 1, 1, "v"⟩ : GridElement)]]) "x"
        ≠ ([] : List (List GridElement)))
  ∧ html_cmd (.file true "x") (fun _ => [[(⟨false, 1, 1, 1, 1, "v"⟩ : GridElement)]])
      (fun _ _ => none) none true "text" " → "
      = .error (.typeError "sequence item: expected str instance") :=
  ⟨by simp, C8_nested_tables_type_error "x" " → " "text"
    (fun _ => [[⟨false, 1, 1, 1, 1, "v"⟩]]) (fun _ _ => none) (by simp) (Or.inl rfl)⟩

theorem decimalDigitStarts_bound : ∀ s ∈ decimalDigitStarts, s = 48 ∨ 1632 ≤ s := by
  decide

theorem digit_not_letter {c : Char} (h : isPyDigit c = true) : isAsciiLetter c = false := by
  simp [isPyDigit, List.any_eq_true] at h
  obtain ⟨s, hs, hle⟩ := h
  rcases decimalDigitStarts_bound s hs with rfl | hge <;>
    · simp [isAsciiLetter]
      omega

theorem takeWhile_letters_of_decomp (ls ds : List Char)
    (h1 : ∀ x ∈ ls, isAsciiLetter x = true) (h2 : ∀ x ∈ ds, isPyDigit x = true)
    (hd : ds ≠ []) :
    (ls ++ ds).takeWhile isAsciiLetter = ls ∧ (ls ++ ds).dropWhile isAsciiLetter = ds := by
  induction ls with
  | nil =>
    cases ds with
    | nil => exact absurd rfl hd
    | cons d t =>
      have := digit_not_letter (h2 d (by simp))
      simp [List.takeWhile, List.dropWhile, this]
  | cons a l ih =>
    have ha := h1 a (by simp)
    have := ih fun x hx => h1 x (by simp [hx])
    simp [List.takeWhile, List.dropWhile, ha, this.1, this.2]

/-- Claim C9: `parse_cell_reference` maps every input whose stripped text
(Unicode whitespace removed) is one or more ASCII letters followed by one
or more digits — decimal digits as the str-pattern backslash-d matches
them, any script — to the pair of the digit group read as a decimal row
(positional base 10 over each digit's decimal value, as `int` parses it)
and the letter group read case-insensitively in bijective base 26 as the
column, and raises a `ClickException` on every input not of that shape. -/
theorem C9_parse_cell_reference (s : String) :
    (∀ ls ds : List Char, ls ≠ [] → ds ≠ [] →
        (∀ ch ∈ ls, isAsciiLetter ch = true) → (∀ ch ∈ ds, isPyDigit ch = true) →
        pyStrip s = ls ++ ds →
        parse_cell_reference s = .ok (rowOfDigits ds, colOfLetters ls))
  ∧ ((¬ ∃ ls ds : List Char, ls ≠ [] ∧ ds ≠ [] ∧ (∀ ch ∈ ls, isAsciiLetter ch = true)
        ∧ (∀ ch ∈ ds, isPyDigit ch = true) ∧ pyStrip s = ls ++ ds) →
      parse_cell_reference s
        = .error (.clickException
            "Invalid cell reference. Use Excel format like A1 or B3.")) := by
  constructor
  · intro ls ds hls hds h1 h2 heq
    obtain ⟨htake, hdrop⟩ := takeWhile_letters_of_decomp ls ds h1 h2 hds
    rw [parse_cell_reference]
    simp only [heq, htake, hdrop]
    rw [if_pos ⟨hls, hds, List.all_eq_true.mpr fun x hx => h2 x hx⟩]
  · intro hne
    rw [parse_cell_reference]
    rw [if_neg]
    rintro ⟨hls, hds, hall⟩
    refine hne ⟨(pyStrip s).takeWhile isAsciiLetter, (pyStrip s).dropWhile isAsciiLetter,
      hls, hds, ?_, ?_, (List.takeWhile_append_dropWhile ..).symm⟩
    · intro ch hch
      exact List.mem_takeWhile_imp hch
    · exact List.all_eq_true.mp hall

/-- Witness for C9: a padded lowercase reference parses to its row and
bijective-base-26 column; an Arabic-Indic digit (code point 1635, matched
by the str-pattern backslash-d and parsed by `int` as 3) and a
no-break-space padded input parse exactly as the code does; a digits-first
input raises. -/
theorem C9_parse_cell_reference_witness :
    parse_cell_reference " b3 " = .ok (3, 2)
  ∧ parse_cell_reference "A٣" = .ok (3, 1)
  ∧ parse_cell_reference " B3 " = .ok (3, 2)
  ∧ parse_cell_reference "3B"
      = .error (.clickException "Invalid cell reference. Use Excel format like A1 or B3.") := by
  refine ⟨?_, ?_, ?_, ?_⟩
  · exact ((C9_parse_cell_reference " b3 ").1 ['b'] ['3'] (by decide) (by decide)
      (by decide) (by decide) (by decide)).trans (congrArg Except.ok (by decide))
  · exact ((C9_parse_cell_reference "A٣").1 ['A'] ['٣'] (by decide) (by decide)
      (by decide) (by decide) (by decide)).trans (congrArg Except.ok (by decide))
  · exact ((C9_parse_cell_reference " B3 ").1 ['B'] ['3'] (by decide) (by decide)
      (by decide) (by decide) (by decide)).trans (congrArg Except.ok (by decide))
  · refine (C9_parse_cell_reference "3B").2 ?_
    rintro ⟨ls, ds, hls, hds, h1, h2, heq⟩
    have hdata : pyStrip "3B" = ['3', 'B'] := by decide
    rw [hdata] at heq
    cases ls with
    | nil => exact hls rfl
    | cons a t =>
      have ha := h1 a (by simp)
      rw [List.cons_append] at heq
      injection heq with hhd htl
      rw [← hhd] at ha
      exact absurd ha (by decide)

end Untabulate
